import Mathlib

/-!
Verification of the slide-import conversion pipeline of PPTist
(`src/hooks/useImport.ts`), embedded shallowly in Lean 4.

JS numbers are modelled as rationals (`ℚ`).  External collaborators of the
pipeline (the shape table, the path-formula table, the SVG path range
utility, the HTML/DOM helpers, the EMF transcoder, `Math.cos`/`Math.sin`
and the `nanoid` id generator) are passed in as explicit read-only
parameters of the conversion functions, mirroring the fact that the
source consults them as opaque external interfaces.
-/

namespace PPTist

/-- JS numbers (IEEE doubles in the source) are modelled as rationals.
Division by zero yields `0` in this model where JS would produce
`Infinity`/`NaN`; every claim settled below either avoids that case or
notes it explicitly. -/
abbrev Num := ℚ

/-- Model of JS `(x).toFixed(2)` followed by unary `+`: rounding to two
decimal places. -/
def toFixed2 (x : Num) : Num := (round (x * 100) : ℤ) / 100

/-- Model of JS `(x).toFixed(1)`: rounding to one decimal place. -/
def toFixed1 (x : Num) : Num := (round (x * 10) : ℤ) / 10

/-- Whether `p` is a leading segment of `c` (on character lists). -/
def leadsWith : List Char → List Char → Bool
  | [], _ => true
  | _ :: _, [] => false
  | p :: ps, c :: cs => p = c && leadsWith ps cs

/-- Whether the pattern occurs somewhere in the character list. -/
def hasSubstr (pat : List Char) : List Char → Bool
  | [] => leadsWith pat []
  | c :: rest => leadsWith pat (c :: rest) || hasSubstr pat rest

/-- Model of the JS regex test `/pat/.test(s)` for a plain-text pattern:
substring containment. -/
def containsSubstr (s pat : String) : Bool := hasSubstr pat.toList s.toList

/-- The string held by an optional value, or the empty string (JS reads
of possibly-absent string fields). -/
def strOrEmpty : Option String → String
  | some s => s
  | none => ""

/-- Model of JS `Math.min(...xs)` on a spread list.  The empty case
(`+Infinity` in JS) is modelled as `0`; the source only ever applies it
to non-empty sibling lists. -/
def jsMin : List Num → Num
  | [] => 0
  | x :: xs => xs.foldl min x

/-- Model of JS `Math.max(...xs)` on a spread list (empty case as in `jsMin`). -/
def jsMax : List Num → Num
  | [] => 0
  | x :: xs => xs.foldl max x

/-- Element kinds.  Raw elements use the subset without `line`; converted
elements use the subset without `group`/`diagram` (raw line geometry
arrives tagged as `shape` with a line/connector `shapType`). -/
inductive ElemType where
  | text | image | math | audio | video | shape | line | table | chart | group | diagram
  deriving DecidableEq, Repr

/-- Gradient color stop.  The raw `pos` is run through `Number.parseInt`
in the source; it is modelled as an already-parsed integer. -/
structure GradStop where
  pos : Int := 0
  color : String := ""
  deriving DecidableEq, Repr

/-- Raw gradient fill payload (`el.fill.value` with `type === 'gradient'`). -/
structure RawGradient where
  path : String := ""
  colors : List GradStop := []
  rot : Num := 0
  deriving DecidableEq, Repr

/-- Raw fill of an element or slide (`{type, value}` in the source). -/
inductive RawFill where
  | color (value : String)
  | gradient (value : RawGradient)
  | image (picBase64 : String) (opacity : Num)
  deriving DecidableEq, Repr

/-- Raw shadow payload. -/
structure RawShadow where
  h : Num := 0
  v : Num := 0
  blur : Num := 0
  color : String := ""
  deriving DecidableEq, Repr

/-- Raw image crop rectangle (`el.rect`); absent components are modelled
as `0`, matching the source's `|| 0` defaults. -/
structure RawRect where
  l : Num := 0
  t : Num := 0
  r : Num := 0
  b : Num := 0
  deriving DecidableEq, Repr

/-- One border record (`{borderWidth, borderType, borderColor}`); absent
string components are modelled as `""` and absent widths as `0`, matching
the source's `|| 0` / `|| 'solid'` / `|| '#eeece1'` defaulting. -/
structure RawBorder where
  borderWidth : Num := 0
  borderType : String := ""
  borderColor : String := ""
  deriving DecidableEq, Repr

/-- Border sides of a table or cell. -/
structure RawBorders where
  top : Option RawBorder := none
  bottom : Option RawBorder := none
  left : Option RawBorder := none
  right : Option RawBorder := none
  deriving DecidableEq, Repr

/-- Raw table cell. `colSpan`/`rowSpan` use `0` for the absent case, which
the source defaults via `|| 1`. -/
structure RawCell where
  text : String := ""
  colSpan : Num := 0
  rowSpan : Num := 0
  fontColor : String := ""
  fontBold : Bool := false
  fillColor : String := ""
  borders : Option RawBorders := none
  deriving DecidableEq, Repr

/-- One category-chart series (`ChartItem` of `pptxtojson`): x-axis label
set, series key and y-component list. -/
structure RawChartItem where
  xlabels : List String := []
  key : String := ""
  values : List Num := []
  deriving DecidableEq, Repr

/-- Common field record of a raw element.  The source works on a
loosely-typed union; this record carries every field the converter reads,
with kind-irrelevant fields left at their defaults.  Scatter/bubble chart
payloads and category payloads live in separate fields (`scatterData`
vs `chartItems`) although the source overloads one `data` field. -/
structure RawProps where
  type : ElemType := .text
  left : Num := 0
  top : Num := 0
  width : Num := 0
  height : Num := 0
  rotate : Num := 0
  isFlipH : Bool := false
  isFlipV : Bool := false
  order : Num := 0
  borderColor : String := ""
  borderWidth : Num := 0
  borderType : String := ""
  content : String := ""
  isVertical : Bool := false
  fill : Option RawFill := none
  shadow : Option RawShadow := none
  src : Option String := none
  blob : Option String := none
  rect : Option RawRect := none
  geom : Option String := none
  picBase64 : String := ""
  shapType : String := ""
  path : Option String := none
  vAlign : String := ""
  tableData : List (List RawCell) := []
  colWidths : List Num := []
  rowHeights : List Num := []
  borders : Option RawBorders := none
  chartType : String := ""
  barDir : String := ""
  grouping : String := ""
  chartColors : List String := []
  scatterData : List (List Num) := []
  chartItems : List RawChartItem := []
  deriving Repr

/-- A raw element: its field record plus the nested children list used by
`group`/`diagram` containers. -/
inductive RawEl where
  | mk (props : RawProps) (children : List RawEl)

/-- Field record of a raw element. -/
def RawEl.props : RawEl → RawProps
  | .mk p _ => p

/-- Children of a raw `group`/`diagram` element (`el.elements`). -/
def RawEl.children : RawEl → List RawEl
  | .mk _ cs => cs

/-- Converted gradient (`Gradient` of the internal model). -/
structure Gradient where
  type : String := ""
  colors : List GradStop := []
  rotate : Num := 0
  deriving DecidableEq, Repr

/-- Converted outline (`{color, width, style}`). -/
structure Outline where
  color : String := ""
  width : Num := 0
  style : String := ""
  deriving DecidableEq, Repr

/-- Converted shadow. -/
structure Shadow where
  h : Num := 0
  v : Num := 0
  blur : Num := 0
  color : String := ""
  deriving DecidableEq, Repr

/-- Image clip descriptor (`{shape, range}` with range in 0-100 units). -/
structure Clip where
  shape : String := ""
  range : (Num × Num) × (Num × Num) := ((0, 0), (0, 0))
  deriving DecidableEq, Repr

/-- Internal chart type. -/
inductive ChartType where
  | bar | column | line | area | scatter | pie | radar | ring
  deriving DecidableEq, Repr

/-- Converted table cell. `fontsize` is the numeric value of the source's
`'<n>px'` string (`none` for the source's `''`). -/
structure IntCell where
  id : String := ""
  colspan : Num := 1
  rowspan : Num := 1
  text : String := ""
  align : String := ""
  fontsize : Option Num := none
  fontname : String := ""
  color : String := ""
  bold : Bool := false
  backcolor : String := ""
  deriving DecidableEq, Repr

/-- A converted element.  The source pushes heterogeneous object literals
into `slide.elements`; this record is their union, with kind-irrelevant
fields left at their defaults.  `startPt`/`endPt` stand for the source's
`start`/`end` fields of line elements. -/
structure IntEl where
  type : ElemType := .text
  id : String := ""
  left : Num := 0
  top : Num := 0
  width : Num := 0
  height : Num := 0
  rotate : Num := 0
  content : String := ""
  defaultFontName : String := ""
  defaultColor : String := ""
  lineHeight : Num := 0
  outline : Option Outline := none
  fill : String := ""
  vertical : Bool := false
  shadow : Option Shadow := none
  src : String := ""
  fixedRatio : Bool := false
  flipH : Bool := false
  flipV : Bool := false
  clip : Option Clip := none
  startPt : Num × Num := (0, 0)
  endPt : Num × Num := (0, 0)
  style : String := ""
  color : String := ""
  points : String × String := ("", "")
  broken2 : Option (Num × Num) := none
  cubic : Option ((Num × Num) × (Num × Num)) := none
  viewBox : Num × Num := (0, 0)
  path : String := ""
  pathFormula : Option String := none
  keypoints : Option (List Num) := none
  special : Bool := false
  gradient : Option Gradient := none
  pattern : Option String := none
  opacity : Num := 1
  align : String := ""
  loop : Bool := false
  autoplay : Bool := false
  colWidths : List Num := []
  cellMinHeight : Num := 0
  tableData : List (List IntCell) := []
  chartType : ChartType := .bar
  labels : List String := []
  legends : List String := []
  series : List (List Num) := []
  stack : Bool := false
  themeColors : List String := []
  textColor : String := ""
  deriving DecidableEq, Repr

/-- Converted slide background. -/
inductive SlideBackground where
  | solid (color : String)
  | gradient (gradient : Gradient)
  | image (src : String) (size : String)
  deriving DecidableEq, Repr

/-- Converted slide. -/
structure Slide where
  id : String := ""
  elements : List IntEl := []
  background : SlideBackground := .solid "#fff"
  remark : String := ""
  deriving DecidableEq, Repr

/-- Raw slide: fill, note and the two element lists the assembler
concatenates (`item.elements` and `item.layoutElements`). -/
structure RawSlide where
  fill : Option RawFill := none
  note : String := ""
  elements : List RawEl := []
  layoutElements : List RawEl := []

/-- Raw document handed to `processSlidesFromRawData`: optional declared
canvas width (`json.size.width`; `0` models the falsy/absent width),
optional theme colors, and the slides. -/
structure RawDoc where
  size : Option Num := none
  themeColors : Option (List String) := none
  slides : List RawSlide := []

/-- Store mutations issued during one import (the `slidesStore` calls). -/
structure ImportEffects where
  viewportUpdates : List Num := []
  themeUpdates : List (List String) := []
  deriving DecidableEq, Repr

/-- Read-only theme state consulted for defaulting. -/
structure Theme where
  fontName : String := ""
  fontColor : String := ""
  themeColors : List String := []

/-- One entry of the external shape lookup table (`ShapePoolItem`). -/
structure ShapePoolItem where
  pptxShapeType : Option String := none
  path : String := ""
  viewBox : Num × Num := (0, 0)
  pathFormula : Option String := none

/-- One entry of the external path-formula table.  The source's variadic
`formula(w, h)` / `formula(w, h, defaultValue)` call shapes are modelled
as the two fields `formula` and `formulaWithValues`. -/
structure PathFormulaEntry where
  editable : Bool := false
  defaultValue : List Num := []
  formula : Num → Num → String := fun _ _ => ""
  formulaWithValues : Num → Num → List Num → String := fun _ _ _ => ""

/-- Intermediate state of the shape branch: the fields of the element
record that the successive resolution steps of the source mutate
(`element.path`, `element.viewBox`, `element.pathFormula`,
`element.keypoints`, `element.width`, `element.height`,
`element.special`). -/
structure ShapeResolution where
  path : String := ""
  viewBox : Num × Num := (0, 0)
  pathFormula : Option String := none
  keypoints : Option (List Num) := none
  width : Num := 0
  height : Num := 0
  special : Bool := false
  deriving DecidableEq, Repr

/-- Default path of a converted shape's base record
(`'M 0 0 L 200 0 L 200 200 L 0 200 Z'`). -/
def defaultShapePath : String := "M 0 0 L 200 0 L 200 200 L 0 200 Z"

/-- Vertical-alignment map of the shape converter (`vAlignMap`), with the
source's `|| 'middle'` default applied. -/
def vAlignMap (v : String) : String :=
  if v = "mid" then "middle"
  else if v = "down" then "bottom"
  else if v = "up" then "top"
  else "middle"

/-- Fill color of an element (`el.fill?.type === 'color' ? el.fill.value : ''`). -/
def fillColorOf : Option RawFill → String
  | some (.color v) => v
  | _ => ""

/-- Gradient of a shape element's fill
(`el.fill?.type === 'gradient' ? {...} : undefined`); the converted
rotation is the raw `rot` unchanged. -/
def shapeGradientOf : Option RawFill → Option Gradient
  | some (.gradient g) =>
    some { type := if g.path = "line" then "linear" else "radial"
           colors := g.colors
           rotate := g.rot }
  | _ => none

/-- Pattern of a shape element's fill
(`el.fill?.type === 'image' ? el.fill.value.picBase64 : undefined`). -/
def patternOf : Option RawFill → Option String
  | some (.image pic _) => some pic
  | _ => none

/-- Opacity of a shape element
(`el.fill?.type === 'image' ? el.fill.value.opacity : 1`). -/
def opacityOf : Option RawFill → Num
  | some (.image _ o) => o
  | _ => 1

/-- Slide background resolution (`processSlidesFromRawData`, slide loop):
absent fill defaults to solid `'#fff'`; a gradient background's rotation
is the raw `rot` plus `90`. -/
def parseBackgroundFill : Option RawFill → SlideBackground
  | some (.image pic _) => .image pic "cover"
  | some (.gradient g) =>
    .gradient { type := if g.path = "line" then "linear" else "radial"
                colors := g.colors
                rotate := g.rot + 90 }
  | some (.color v) => .solid (if v = "" then "#fff" else v)
  | none => .solid "#fff"

/-- Import preamble of `processSlidesFromRawData`: the scale ratio and the
list of `setViewportSize` calls issued.  The ratio defaults to `96 / 72`;
when a non-zero canvas width is declared, the `fixedViewport` option
selects between recomputing the ratio as `1000 / width` (no store call)
and issuing one `setViewportSize(width * ratio)` call. -/
def importPreamble (size : Option Num) (fixedViewport : Bool) : Num × List Num :=
  let r0 : Num := 96 / 72
  match size with
  | some w =>
    if w ≠ 0 then
      if fixedViewport then (1000 / w, []) else (r0, [w * r0])
    else (r0, [])
  | none => (r0, [])

/-- Endpoint rotation of a line about its midpoint (`rotateLine`), with
bounding-box renormalization; `cosD`/`sinD` supply `Math.cos`/`Math.sin`
of an angle given in degrees.  Returns the adjusted endpoints and the
offset between the original and renormalized bounding-box origins. -/
def rotateLine (cosD sinD : Num → Num) (start endp : Num × Num) (angleDeg : Num) :
    (Num × Num) × (Num × Num) × (Num × Num) :=
  let midX := (start.1 + endp.1) / 2
  let midY := (start.2 + endp.2) / 2
  let startTransX := start.1 - midX
  let startTransY := start.2 - midY
  let endTransX := endp.1 - midX
  let endTransY := endp.2 - midY
  let cosA := cosD angleDeg
  let sinA := sinD angleDeg
  let startRotX := startTransX * cosA - startTransY * sinA
  let startRotY := startTransX * sinA + startTransY * cosA
  let endRotX := endTransX * cosA - endTransY * sinA
  let endRotY := endTransX * sinA + endTransY * cosA
  let startNewX := startRotX + midX
  let startNewY := startRotY + midY
  let endNewX := endRotX + midX
  let endNewY := endRotY + midY
  let beforeMinX := min start.1 endp.1
  let beforeMinY := min start.2 endp.2
  let afterMinX := min startNewX endNewX
  let afterMinY := min startNewY endNewY
  ((startNewX - afterMinX, startNewY - afterMinY),
   (endNewX - afterMinX, endNewY - afterMinY),
   (afterMinX - beforeMinX, afterMinY - beforeMinY))

/-- Line/connector conversion (`parseLineElement`).  The element `p` has
already been scaled by the caller; `ratio` is only applied to the border
width.  Endpoints are chosen by the 4-way lookup on the flip flags, then
rotated (via `rotateLine`) when a rotation is present. -/
def parseLineElement (cosD sinD : Num → Num) (nanoid : String) (p : RawProps)
    (ratio : Num) : IntEl :=
  let startEnd : (Num × Num) × (Num × Num) :=
    if !p.isFlipV && !p.isFlipH then ((0, 0), (p.width, p.height))
    else if p.isFlipV && p.isFlipH then ((p.width, p.height), (0, 0))
    else if p.isFlipV && !p.isFlipH then ((0, p.height), (p.width, 0))
    else ((p.width, 0), (0, p.height))
  let base : IntEl :=
    { type := .line
      id := nanoid
      width := toFixed2 ((if p.borderWidth = 0 then 1 else p.borderWidth) * ratio)
      left := p.left
      top := p.top
      startPt := startEnd.1
      endPt := startEnd.2
      style := p.borderType
      color := p.borderColor
      points := ("", if containsSubstr p.shapType "straightConnector" then "arrow" else "") }
  let base :=
    if p.rotate ≠ 0 then
      let r := rotateLine cosD sinD base.startPt base.endPt p.rotate
      { base with startPt := r.1, endPt := r.2.1,
                  left := base.left + r.2.2.1, top := base.top + r.2.2.2 }
    else base
  let base :=
    if containsSubstr p.shapType "bentConnector" then
      { base with broken2 := some (|base.startPt.1 - base.endPt.1| / 2,
                                   |base.startPt.2 - base.endPt.2| / 2) }
    else base
  if containsSubstr p.shapType "curvedConnector" then
    let cub : Num × Num := (|base.startPt.1 - base.endPt.1| / 2,
                            |base.startPt.2 - base.endPt.2| / 2)
    { base with cubic := some (cub, cub) }
  else base

/-- Axis of a sibling flip: `'x'` flips `top`, `'y'` flips `left`. -/
inductive Axis where
  | x | y
  deriving DecidableEq, Repr

/-- Least `left` of a sibling list (`minX` of `flipGroupElements`). -/
def sibMinX (els : List RawEl) : Num := jsMin (els.map fun e => e.props.left)

/-- Greatest `left + width` of a sibling list (`maxX`). -/
def sibMaxX (els : List RawEl) : Num :=
  jsMax (els.map fun e => e.props.left + e.props.width)

/-- Least `top` of a sibling list (`minY`). -/
def sibMinY (els : List RawEl) : Num := jsMin (els.map fun e => e.props.top)

/-- Greatest `top + height` of a sibling list (`maxY`). -/
def sibMaxY (els : List RawEl) : Num :=
  jsMax (els.map fun e => e.props.top + e.props.height)

/-- Horizontal center line of a sibling bounding box (`centerX`). -/
def sibCenterX (els : List RawEl) : Num := (sibMinX els + sibMaxX els) / 2

/-- Vertical center line of a sibling bounding box (`centerY`). -/
def sibCenterY (els : List RawEl) : Num := (sibMinY els + sibMaxY els) / 2

/-- Reflection of one element about the given center lines (the body of
the `map` in `flipGroupElements`). -/
def flipOne (cX cY : Num) (axis : Axis) (e : RawEl) : RawEl :=
  let p := e.props
  let p := if axis = .y then { p with left := 2 * cX - p.left - p.width } else p
  let p := if axis = .x then { p with top := 2 * cY - p.top - p.height } else p
  .mk p e.children

/-- Sibling flip about the joint bounding box (`flipGroupElements`):
reflects every element's `left` (axis `y`) or `top` (axis `x`) about the
box's center line. -/
def flipGroupElements (els : List RawEl) (axis : Axis) : List RawEl :=
  els.map (flipOne (sibCenterX els) (sibCenterY els) axis)

/-- Position of a child point after its container is rotated about its own
center (`calculateRotatedPosition`); `cosD`/`sinD` supply
`Math.cos`/`Math.sin` of the angle `k` given in degrees. -/
def calculateRotatedPosition (cosD sinD : Num → Num)
    (x y w h ox oy k : Num) : Num × Num :=
  let containerCenterX := x + w / 2
  let containerCenterY := y + h / 2
  let relativeX := ox - w / 2
  let relativeY := oy - h / 2
  let rotatedX := relativeX * cosD k + relativeY * sinD k
  let rotatedY := -relativeX * sinD k + relativeY * cosD k
  (containerCenterX + rotatedX, containerCenterY + rotatedY)

/-- Normalization of table column widths (`processSlidesFromRawData`,
table branch): each raw width divided by the raw total.  In this rational
model a division by a zero total yields `0` where JS would produce
`NaN`/`Infinity`; either way the normalized widths fail to sum to `1`
for a zero total. -/
def normalizeColWidths (ws : List Num) : List Num :=
  let allWidth := ws.foldl (· + ·) 0
  ws.map fun w => w / allWidth

/-- Chart-subtype resolution (the `switch` of the chart branch): the
internal chart type together with the stacking option flag.  The type
starts at `bar` and the `default` case leaves it unchanged. -/
def mapChartOptions (chartType barDir grouping : String) : ChartType × Bool :=
  let stackedGrouping := grouping = "stacked" ∨ grouping = "percentStacked"
  if chartType = "barChart" ∨ chartType = "bar3DChart" then
    ((if barDir = "bar" then .column else .bar), stackedGrouping)
  else if chartType = "lineChart" ∨ chartType = "line3DChart" then
    (.line, stackedGrouping)
  else if chartType = "areaChart" ∨ chartType = "area3DChart" then
    (.area, stackedGrouping)
  else if chartType = "scatterChart" ∨ chartType = "bubbleChart" then
    (.scatter, false)
  else if chartType = "pieChart" ∨ chartType = "pie3DChart" then
    (.pie, false)
  else if chartType = "radarChart" then
    (.radar, false)
  else if chartType = "doughnutChart" then
    (.ring, false)
  else (.bar, false)

/-- ViewBox fitted to a path's coordinate bounding box while matching the
element's own (pre-scale) aspect ratio; this computation appears three
times in the shape branch. -/
def fitViewBox (maxX maxY origW origH : Num) : Num × Num :=
  if maxX / maxY > origW / origH then (maxX, maxX * origH / origW)
  else (maxY * origW / origH, maxY)

/-- Style information the source extracts from a table cell's HTML
fragment through the browser DOM (`document.createElement` etc.):
first paragraph's text-align, first span's font size (pt, parsed with
`Number.parseInt`), font family and color, and the fragment's
`innerText`.  The DOM is an external collaborator, so the extraction is a
parameter of the conversion. -/
structure CellHtml where
  align : String := ""
  fontSizePt : Option Num := none
  fontFamily : String := ""
  color : String := ""
  innerText : String := ""

/-- Scaling mutation applied to every raw element before kind dispatch
(`el.width = el.width * ratio` etc.). -/
def scaleEl (r : Num) (p : RawProps) : RawProps :=
  { p with width := p.width * r, height := p.height * r,
           left := p.left * r, top := p.top * r }

/-- Stable ascending sort on the raw `order` field
(`elements.sort((a, b) => a.order - b.order)`). -/
def sortByOrder (els : List RawEl) : List RawEl :=
  els.insertionSort fun a b => a.props.order ≤ b.props.order

/-- Clip shape whitelist of the image branch (`clipShapeTypes`). -/
def clipShapeTypes : List String :=
  ["roundRect", "ellipse", "triangle", "rhombus", "pentagon", "hexagon",
   "heptagon", "octagon", "parallelogram", "trapezoid"]

section Conversion

variable (theme : Theme)
variable (shapeList : List ShapePoolItem)
variable (pathFormulas : String → PathFormulaEntry)
variable (getSvgPathRange : String → Num × Num)
variable (convertFontSizePtToPx : String → Num → String)
variable (parseCellHtml : String → CellHtml)
variable (emfToPng : String → String)
variable (cosD sinD : Num → Num)
variable (nanoid : String)

/-- Text element conversion (the `el.type === 'text'` branch).  The
element `p` has already been scaled. -/
def convertText (r : Num) (p : RawProps) : IntEl :=
  { type := .text
    id := nanoid
    width := p.width
    height := p.height
    left := p.left
    top := p.top
    rotate := p.rotate
    defaultFontName := theme.fontName
    defaultColor := theme.fontColor
    content := convertFontSizePtToPx p.content r
    lineHeight := 1
    outline := some { color := p.borderColor
                      width := toFixed2 (p.borderWidth * r)
                      style := p.borderType }
    fill := fillColorOf p.fill
    vertical := p.isVertical
    shadow := p.shadow.map fun s =>
      { h := s.h * r, v := s.v * r, blur := s.blur * r, color := s.color } }

/-- Image element conversion (the `el.type === 'image'` branch).  Legacy
EMF sources are routed through the external transcoder. -/
def convertImage (r : Num) (p : RawProps) : IntEl :=
  let src0 := p.src.getD ""
  let src := if src0.startsWith "data:image/x-emf" || src0.toLower.endsWith ".emf"
    then emfToPng src0 else src0
  { type := .image
    id := nanoid
    src := src
    width := p.width
    height := p.height
    left := p.left
    top := p.top
    fixedRatio := true
    rotate := p.rotate
    flipH := p.isFlipH
    flipV := p.isFlipV
    outline := if p.borderWidth ≠ 0 then
        some { color := p.borderColor
               width := toFixed2 (p.borderWidth * r)
               style := p.borderType }
      else none
    clip :=
      match p.rect with
      | some rc =>
        some { shape := match p.geom with
                        | some g => if g ∈ clipShapeTypes then g else "rect"
                        | none => "rect"
               range := ((rc.l, rc.t), (100 - rc.r, 100 - rc.b)) }
      | none =>
        match p.geom with
        | some g => if g ∈ clipShapeTypes then
            some { shape := g, range := ((0, 0), (100, 100)) }
          else none
        | none => none }

/-- Math element conversion (the `el.type === 'math'` branch): stored as
an image of the rendered formula. -/
def convertMath (p : RawProps) : IntEl :=
  { type := .image
    id := nanoid
    src := p.picBase64
    width := p.width
    height := p.height
    left := p.left
    top := p.top
    fixedRatio := true
    rotate := 0 }

/-- Audio element conversion. -/
def convertAudio (p : RawProps) : IntEl :=
  { type := .audio
    id := nanoid
    src := p.blob.getD ""
    width := p.width
    height := p.height
    left := p.left
    top := p.top
    rotate := 0
    fixedRatio := false
    color := theme.themeColors.headD ""
    loop := false
    autoplay := false }

/-- Video element conversion (`src: (el.blob || el.src)!`). -/
def convertVideo (p : RawProps) : IntEl :=
  { type := .video
    id := nanoid
    src := match p.blob with
           | some b => if b = "" then p.src.getD "" else b
           | none => p.src.getD ""
    width := p.width
    height := p.height
    left := p.left
    top := p.top
    rotate := 0
    autoplay := false }

/-- Path/viewBox resolution of the shape branch (the non-line part of the
`'shape'` case): the successive mutations of `element.path`,
`element.viewBox`, `element.width`, `element.height` etc. between the
base record and the final push.  `origW`/`origH` are the pre-scale
width/height (`|| 1` applied); `p` has already been scaled.  Resolution
order: shape-table match (with optional parametric path formula), then
usable raw path with fitted viewBox, then the `'custom'` special case. -/
def shapeResolutionOf (origW origH : Num) (p : RawProps) : ShapeResolution :=
  let shapeEntry := shapeList.find? fun s => s.pptxShapeType = some p.shapType
  let res0 : ShapeResolution :=
    match shapeEntry with
    | some shape =>
      match shape.pathFormula with
      | some pf =>
        let entry := pathFormulas pf
        if entry.editable then
          { path := entry.formulaWithValues p.width p.height entry.defaultValue
            viewBox := (p.width, p.height)
            pathFormula := some pf
            keypoints := some entry.defaultValue
            width := p.width, height := p.height }
        else
          { path := entry.formula p.width p.height
            viewBox := (p.width, p.height)
            pathFormula := some pf
            width := p.width, height := p.height }
      | none =>
        { path := shape.path, viewBox := shape.viewBox
          width := p.width, height := p.height }
    | none =>
      match p.path with
      | some rp =>
        if ¬ containsSubstr rp "NaN" then
          let range := getSvgPathRange rp
          { path := rp, viewBox := fitViewBox range.1 range.2 origW origH
            width := p.width, height := p.height }
        else
          { path := defaultShapePath, viewBox := (200, 200)
            width := p.width, height := p.height }
      | none =>
        { path := defaultShapePath, viewBox := (200, 200)
          width := p.width, height := p.height }
  let res : ShapeResolution :=
    if p.shapType = "custom" then
      let rp := strOrEmpty p.path
      let res1 : ShapeResolution :=
        if containsSubstr rp "NaN" then
          { res0 with path := rp.replace "NaN" "0"
                      width := if p.width = 0 then 0.1 else p.width
                      height := if p.height = 0 then 0.1 else p.height }
        else { res0 with path := rp, special := true }
      let range := getSvgPathRange res1.path
      { res1 with viewBox := fitViewBox range.1 range.2 origW origH }
    else res0
  res

/-- The shape element record built from the resolved path/viewBox state. -/
def mkShapeElement (r : Num) (p : RawProps) (res : ShapeResolution) : IntEl :=
  { type := .shape
    id := nanoid
    width := res.width
    height := res.height
    left := p.left
    top := p.top
    viewBox := res.viewBox
    path := res.path
    fill := fillColorOf p.fill
    gradient := shapeGradientOf p.fill
    pattern := patternOf p.fill
    opacity := opacityOf p.fill
    fixedRatio := false
    rotate := p.rotate
    outline := some { color := p.borderColor
                      width := toFixed2 (p.borderWidth * r)
                      style := p.borderType }
    content := convertFontSizePtToPx p.content r
    defaultFontName := theme.fontName
    defaultColor := theme.fontColor
    align := vAlignMap p.vAlign
    flipH := p.isFlipH
    flipV := p.isFlipV
    shadow := p.shadow.map fun s =>
      { h := s.h * r, v := s.v * r, blur := s.blur * r, color := s.color }
    pathFormula := res.pathFormula
    keypoints := res.keypoints
    special := res.special }

/-- Shape element conversion result: the element is produced only when
the resolved path is non-empty
(`if (element.path) slide.elements.push(element)`). -/
def convertShape (r origW origH : Num) (p : RawProps) : Option IntEl :=
  let res := shapeResolutionOf shapeList pathFormulas getSvgPathRange
    origW origH p
  if res.path ≠ "" then
    some (mkShapeElement theme convertFontSizePtToPx nanoid r p res)
  else none

/-- Table element conversion (the `el.type === 'table'` branch).  Cell
styling is extracted from each cell's HTML fragment (via the external DOM
helper `parseCellHtml`); column widths are normalized by the raw total;
border styling takes the first non-empty match of the source's priority
chain.  The source indexes cells by the first row's length and throws on
an empty table; ragged or empty matrices are modelled per-row here. -/
def convertTable (r : Num) (p : RawProps) : IntEl :=
  let cells : List (List IntCell) := p.tableData.map fun rowCells =>
    rowCells.map fun (cellData : RawCell) =>
      let ch := parseCellHtml cellData.text
      let align := if ch.align = "" then "left" else ch.align
      { id := nanoid
        colspan := if cellData.colSpan = 0 then 1 else cellData.colSpan
        rowspan := if cellData.rowSpan = 0 then 1 else cellData.rowSpan
        text := ch.innerText
        align := if align ∈ ["left", "right", "center"] then align else "left"
        fontsize := ch.fontSizePt.map fun n => toFixed1 (n * r)
        fontname := ch.fontFamily
        color := if ch.color = "" then cellData.fontColor else ch.color
        bold := cellData.fontBold
        backcolor := cellData.fillColor }
  let firstCell : RawCell := (p.tableData.headD []).headD {}
  let border : Option RawBorder :=
    (firstCell.borders.bind (·.top)) <|> (firstCell.borders.bind (·.bottom)) <|>
    (p.borders.bind (·.top)) <|> (p.borders.bind (·.bottom)) <|>
    (firstCell.borders.bind (·.left)) <|> (firstCell.borders.bind (·.right)) <|>
    (p.borders.bind (·.left)) <|> (p.borders.bind (·.right))
  let borderWidth := (border.map (·.borderWidth)).getD 0
  let borderStyle :=
    let s := (border.map (·.borderType)).getD ""
    if s = "" then "solid" else s
  let borderColor :=
    let s := (border.map (·.borderColor)).getD ""
    if s = "" then "#eeece1" else s
  { type := .table
    id := nanoid
    width := p.width
    height := p.height
    left := p.left
    top := p.top
    colWidths := normalizeColWidths p.colWidths
    rotate := 0
    tableData := cells
    outline := some { width := toFixed2 (if borderWidth * r = 0 then 2 else borderWidth * r)
                      style := borderStyle
                      color := borderColor }
    cellMinHeight :=
      match p.rowHeights.head? with
      | some rh => if rh ≠ 0 then rh * r else 36
      | none => 36 }

/-- Chart element conversion (the `el.type === 'chart'` branch). -/
def convertChart (p : RawProps) : IntEl :=
  let reshaped : List String × List String × List (List Num) :=
    if p.chartType = "scatterChart" ∨ p.chartType = "bubbleChart" then
      ((List.range (p.scatterData.headD []).length).map
         (fun i => "坐标" ++ toString (i + 1)),
       ["X", "Y"],
       p.scatterData)
    else
      ((p.chartItems.headD {}).xlabels,
       p.chartItems.map (·.key),
       p.chartItems.map (·.values))
  let opts := mapChartOptions p.chartType p.barDir p.grouping
  { type := .chart
    id := nanoid
    chartType := opts.1
    width := p.width
    height := p.height
    left := p.left
    top := p.top
    rotate := 0
    themeColors := if p.chartColors ≠ [] then p.chartColors else theme.themeColors
    textColor := theme.fontColor
    labels := reshaped.1
    legends := reshaped.2.1
    series := reshaped.2.2
    stack := opts.2 }

/-- Child list of a raw `group` element, prepared for recursion: each
child's position is translated by the container's raw (pre-scale) origin
(rotation-aware via `calculateRotatedPosition` when the container is
rotated), the container's flip flags are propagated, and the translated
children are reflected about their joint bounding box per set flip flag.
Children are modelled as always carrying the flip-flag fields, so the
source's `'isFlipH' in element` guard always holds. -/
def groupChildren (el : RawEl) : List RawEl :=
  let p := el.props
  let originLeft := p.left
  let originTop := p.top
  let originWidth := if p.width = 0 then 1 else p.width
  let originHeight := if p.height = 0 then 1 else p.height
  let translated := el.children.map fun c =>
    let cp := c.props
    let pos : Num × Num :=
      if p.rotate ≠ 0 then
        calculateRotatedPosition cosD sinD originLeft originTop
          originWidth originHeight cp.left cp.top p.rotate
      else (cp.left + originLeft, cp.top + originTop)
    let cp := { cp with left := pos.1, top := pos.2 }
    let cp := if p.isFlipH then { cp with isFlipH := true } else cp
    let cp := if p.isFlipV then { cp with isFlipV := true } else cp
    RawEl.mk cp c.children
  let els := if p.isFlipH then flipGroupElements translated .y else translated
  if p.isFlipV then flipGroupElements els .x else els

/-- Child list of a raw `diagram` element, prepared for recursion: plain
translation by the container's raw (pre-scale) origin only. -/
def diagramChildren (el : RawEl) : List RawEl :=
  let p := el.props
  el.children.map fun c =>
    RawEl.mk { c.props with left := c.props.left + p.left,
                            top := c.props.top + p.top } c.children

/-- The recursive element walk of `processSlidesFromRawData`
(`parseElements`): sort by the raw `order`, scale every element, then
dispatch on the kind; `group`/`diagram` containers contribute only their
(translated, flattened) descendants through recursion.  `fuel` bounds the
recursion depth; the JS recursion terminates on every finite tree, and
any `fuel` at least the nesting depth is exact. -/
def parseElementsF : Nat → Num → List RawEl → List IntEl
  | 0, _, _ => []
  | n + 1, r, els =>
    (sortByOrder els).flatMap fun el =>
      let p0 := el.props
      let originWidth := if p0.width = 0 then 1 else p0.width
      let originHeight := if p0.height = 0 then 1 else p0.height
      let p := scaleEl r p0
      match p0.type with
      | .text => [convertText theme convertFontSizePtToPx nanoid r p]
      | .image => [convertImage emfToPng nanoid r p]
      | .math => [convertMath nanoid p]
      | .audio => [convertAudio theme nanoid p]
      | .video => [convertVideo nanoid p]
      | .shape =>
        if p.shapType = "line" ∨ containsSubstr p.shapType "Connector" then
          [parseLineElement cosD sinD nanoid p r]
        else
          match convertShape theme shapeList pathFormulas getSvgPathRange
              convertFontSizePtToPx nanoid r originWidth originHeight p with
          | some e => [e]
          | none => []
      | .table => [convertTable parseCellHtml nanoid r p]
      | .chart => [convertChart theme nanoid p]
      | .group => parseElementsF n r (groupChildren cosD sinD el)
      | .diagram => parseElementsF n r (diagramChildren el)
      | .line => []

/-- Assembly of one slide: resolved background, note, and the flattened
conversion of the slide's own elements concatenated with its layout
elements. -/
def processSlide (fuel : Nat) (r : Num) (s : RawSlide) : Slide :=
  { id := nanoid
    elements := parseElementsF theme shapeList pathFormulas getSvgPathRange
      convertFontSizePtToPx parseCellHtml emfToPng cosD sinD nanoid fuel r
      (s.elements ++ s.layoutElements)
    background := parseBackgroundFill s.fill
    remark := s.note }

/-- Whole-document conversion (`processSlidesFromRawData`): the import
preamble fixes the scale ratio and the store mutations, then every raw
slide is assembled in order. -/
def processSlidesFromRawData (fuel : Nat) (doc : RawDoc) (fixedViewport : Bool) :
    List Slide × ImportEffects :=
  let pre := importPreamble doc.size fixedViewport
  (doc.slides.map
     (processSlide theme shapeList pathFormulas getSvgPathRange
        convertFontSizePtToPx parseCellHtml emfToPng cosD sinD nanoid fuel pre.1),
   { viewportUpdates := pre.2
     themeUpdates := match doc.themeColors with
                     | some cs => [cs]
                     | none => [] })

end Conversion

/-! Concrete instantiations of the external collaborators, used to
evaluate the pipeline on closed scenarios.  The scenarios below never
enter a rotated branch, so the trigonometric parameters are never
consulted. -/

/-- Sample theme state for concrete evaluations. -/
def sampleTheme : Theme :=
  { fontName := "Arial", fontColor := "#333333", themeColors := ["#5b9bd5"] }

/-- Empty path-formula table for concrete evaluations. -/
def noFormulas : String → PathFormulaEntry := fun _ => {}

/-- Degenerate SVG path range for concrete evaluations. -/
def zeroPathRange : String → Num × Num := fun _ => (0, 0)

/-- Identity font-size rewriting for concrete evaluations. -/
def idFontSize : String → Num → String := fun s _ => s

/-- Trivial cell-HTML extraction for concrete evaluations. -/
def plainCellHtml : String → CellHtml := fun s => { innerText := s }

/-- Identity EMF transcoding for concrete evaluations. -/
def idEmf : String → String := fun s => s

/-- Constant stand-in for `Math.cos`; never consulted by the unrotated
scenarios below. -/
def constCos : Num → Num := fun _ => 1

/-- Constant stand-in for `Math.sin`; never consulted by the unrotated
scenarios below. -/
def constSin : Num → Num := fun _ => 0

/-- The vendor chart-type strings that have a `case` in the source's
`switch`. -/
def recognizedChartTypes : List String :=
  ["barChart", "bar3DChart", "lineChart", "line3DChart", "areaChart",
   "area3DChart", "scatterChart", "bubbleChart", "pieChart", "pie3DChart",
   "radarChart", "doughnutChart"]

/-- C6: the vendor chart-type mapping is total: each recognized vendor
chart-type string maps to exactly one internal chart type (bar charts
switching to `column` when the bar-direction flag equals `"bar"`), and
every unrecognized vendor chart-type string maps to `bar`. -/
theorem chartType_mapping_total (d g s : String) (hs : s ∉ recognizedChartTypes) :
    (mapChartOptions "barChart" d g).1 = (if d = "bar" then .column else .bar) ∧
    (mapChartOptions "bar3DChart" d g).1 = (if d = "bar" then .column else .bar) ∧
    (mapChartOptions "lineChart" d g).1 = .line ∧
    (mapChartOptions "line3DChart" d g).1 = .line ∧
    (mapChartOptions "areaChart" d g).1 = .area ∧
    (mapChartOptions "area3DChart" d g).1 = .area ∧
    (mapChartOptions "scatterChart" d g).1 = .scatter ∧
    (mapChartOptions "bubbleChart" d g).1 = .scatter ∧
    (mapChartOptions "pieChart" d g).1 = .pie ∧
    (mapChartOptions "pie3DChart" d g).1 = .pie ∧
    (mapChartOptions "radarChart" d g).1 = .radar ∧
    (mapChartOptions "doughnutChart" d g).1 = .ring ∧
    (mapChartOptions s d g).1 = .bar := by
  simp only [recognizedChartTypes, List.mem_cons, List.not_mem_nil, or_false,
    not_or] at hs
  obtain ⟨h1, h2, h3, h4, h5, h6, h7, h8, h9, h10, h11, h12⟩ := hs
  refine ⟨?_, ?_, ?_, ?_, ?_, ?_, ?_, ?_, ?_, ?_, ?_, ?_, ?_⟩ <;>
    simp [mapChartOptions, h1, h2, h3, h4, h5, h6, h7, h8, h9, h10, h11, h12]

/-- Witness for `chartType_mapping_total` at a concrete unrecognized
vendor string. -/
theorem chartType_mapping_total_witness :
    "surfaceChart" ∉ recognizedChartTypes ∧
    (mapChartOptions "surfaceChart" "bar" "stacked").1 = .bar := by
  refine ⟨by decide, (chartType_mapping_total "bar" "stacked" "surfaceChart" (by decide)).2.2.2.2.2.2.2.2.2.2.2.2⟩

/-- C10: a shape's gradient fill keeps the raw rotation unchanged while a
slide background's gradient fill gets the raw rotation plus 90; in both
the gradient type is `linear` exactly for the raw path value `"line"` and
`radial` otherwise. -/
theorem gradient_rotation_rule (g : RawGradient) :
    shapeGradientOf (some (.gradient g)) =
      some { type := if g.path = "line" then "linear" else "radial"
             colors := g.colors
             rotate := g.rot } ∧
    parseBackgroundFill (some (.gradient g)) =
      .gradient { type := if g.path = "line" then "linear" else "radial"
                  colors := g.colors
                  rotate := g.rot + 90 } ∧
    (shapeGradientOf (some (.gradient g))).map Gradient.rotate = some g.rot :=
  ⟨rfl, rfl, rfl⟩

/-- C2 (amended): for a zero-rotation line/connector element, the start
and end points are the 4-way lookup on the flip flags, with the flipV-only
case running bottom-left to top-right (`[0,h] → [w,0]`) and the
flipH-only case running top-right to bottom-left (`[w,0] → [0,h]`) — the
two single-flip cases are the transpose of what the specification
states. -/
theorem line_endpoint_lookup (cosD sinD : Num → Num) (nanoid : String)
    (p : RawProps) (r : Num) (hrot : p.rotate = 0) :
    (p.isFlipV = false → p.isFlipH = false →
      (parseLineElement cosD sinD nanoid p r).startPt = (0, 0) ∧
      (parseLineElement cosD sinD nanoid p r).endPt = (p.width, p.height)) ∧
    (p.isFlipV = true → p.isFlipH = true →
      (parseLineElement cosD sinD nanoid p r).startPt = (p.width, p.height) ∧
      (parseLineElement cosD sinD nanoid p r).endPt = (0, 0)) ∧
    (p.isFlipV = true → p.isFlipH = false →
      (parseLineElement cosD sinD nanoid p r).startPt = (0, p.height) ∧
      (parseLineElement cosD sinD nanoid p r).endPt = (p.width, 0)) ∧
    (p.isFlipV = false → p.isFlipH = true →
      (parseLineElement cosD sinD nanoid p r).startPt = (p.width, 0) ∧
      (parseLineElement cosD sinD nanoid p r).endPt = (0, p.height)) := by
  refine ⟨fun hv hh => ?_, fun hv hh => ?_, fun hv hh => ?_, fun hv hh => ?_⟩ <;>
    simp [parseLineElement, hrot, hv, hh, apply_ite IntEl.startPt,
      apply_ite IntEl.endPt]

/-- Raw line element of the counterexample to the stated claim C2:
flipV set, flipH unset, width 100, height 50, no rotation. -/
def flipVLineProps : RawProps :=
  { type := .shape, shapType := "line", width := 100, height := 50,
    isFlipV := true, isFlipH := false, borderWidth := 1 }

/-- Counterexample to C2 as stated: with `isFlipV` only, the converted
start point is the bottom-left corner `[0, 50]`, not the claimed
top-right corner `[100, 0]`. -/
theorem line_endpoint_lookup_cex :
    (parseLineElement constCos constSin "id1" flipVLineProps 1).startPt = (0, 50) ∧
    ((0 : Num), (50 : Num)) ≠ ((100 : Num), (0 : Num)) := by
  constructor
  · simp +decide [parseLineElement, flipVLineProps,
      apply_ite IntEl.startPt]
  · simp

/-- Witness for `line_endpoint_lookup` at a concrete element with both
flips set. -/
theorem line_endpoint_lookup_witness :
    ({ type := .shape, shapType := "line", width := 8, height := 6,
       isFlipV := true, isFlipH := true : RawProps }).rotate = 0 ∧
    (parseLineElement constCos constSin "id1"
      { type := .shape, shapType := "line", width := 8, height := 6,
        isFlipV := true, isFlipH := true } 1).startPt = (8, 6) := by
  refine ⟨rfl, ?_⟩
  exact ((line_endpoint_lookup constCos constSin "id1"
    { type := .shape, shapType := "line", width := 8, height := 6,
      isFlipV := true, isFlipH := true } 1 rfl).2.1 rfl rfl).1

/-- Raw line element of the end-to-end scenario C8: flipH set, flipV
unset, width 100, height 50, no rotation. -/
def c8LineProps : RawProps :=
  { type := .shape, shapType := "line", width := 100, height := 50,
    isFlipH := true, isFlipV := false, borderWidth := 1 }

/-- C8: a raw line element with `isFlipH` only, width 100, height 50 and
zero rotation converts (at scale ratio 1) to a line from `[100, 0]` to
`[0, 50]`. -/
theorem line_flipH_scenario :
    (parseElementsF sampleTheme [] noFormulas zeroPathRange idFontSize
        plainCellHtml idEmf constCos constSin "id1" 1 1
        [RawEl.mk c8LineProps []]).map (fun e => (e.startPt, e.endPt)) =
      [((100, 0), (0, 50))] := by
  norm_num +decide [parseElementsF, sortByOrder, List.insertionSort,
    c8LineProps, scaleEl, RawEl.props, parseLineElement,
    apply_ite IntEl.startPt, apply_ite IntEl.endPt]

/-- C3 (amended): when a raw document declares a non-zero canvas width,
the store receives exactly one viewport-width update `width * 96 / 72`
when the fixed-viewport option is unset; when the option is set, no
viewport update is issued at all and the scale ratio becomes
`1000 / width` instead. -/
theorem viewport_update_rule (theme : Theme) (shapeList : List ShapePoolItem)
    (pathFormulas : String → PathFormulaEntry)
    (getSvgPathRange : String → Num × Num)
    (convertFontSizePtToPx : String → Num → String)
    (parseCellHtml : String → CellHtml) (emfToPng : String → String)
    (cosD sinD : Num → Num) (nanoid : String) (fuel : Nat)
    (doc : RawDoc) (w : Num) (hw : doc.size = some w) (h0 : w ≠ 0) :
    (processSlidesFromRawData theme shapeList pathFormulas getSvgPathRange
        convertFontSizePtToPx parseCellHtml emfToPng cosD sinD nanoid fuel
        doc false).2.viewportUpdates = [w * (96 / 72)] ∧
    (processSlidesFromRawData theme shapeList pathFormulas getSvgPathRange
        convertFontSizePtToPx parseCellHtml emfToPng cosD sinD nanoid fuel
        doc true).2.viewportUpdates = [] ∧
    (importPreamble doc.size true).1 = 1000 / w ∧
    (importPreamble doc.size false).1 = 96 / 72 := by
  refine ⟨?_, ?_, ?_, ?_⟩ <;>
    simp [processSlidesFromRawData, importPreamble, hw, h0]

/-- Counterexample to C3 as stated: importing a document with declared
width 960 under the fixed-viewport option issues zero viewport-width
updates, not exactly one. -/
theorem viewport_update_rule_cex :
    (processSlidesFromRawData sampleTheme [] noFormulas zeroPathRange
        idFontSize plainCellHtml idEmf constCos constSin "id1" 1
        { size := some 960 } true).2.viewportUpdates = [] ∧
    ([] : List Num).length ≠ 1 := by
  constructor
  · simp [processSlidesFromRawData, importPreamble]
  · simp

/-- Witness for `viewport_update_rule` at a concrete document of declared
width 960. -/
theorem viewport_update_rule_witness :
    ({ size := some 960 : RawDoc }).size = some 960 ∧ (960 : Num) ≠ 0 ∧
    (processSlidesFromRawData sampleTheme [] noFormulas zeroPathRange
        idFontSize plainCellHtml idEmf constCos constSin "id1" 1
        { size := some 960 } false).2.viewportUpdates = [960 * (96 / 72)] := by
  refine ⟨rfl, by norm_num, ?_⟩
  exact (viewport_update_rule sampleTheme [] noFormulas zeroPathRange
    idFontSize plainCellHtml idEmf constCos constSin "id1" 1
    { size := some 960 } 960 rfl (by norm_num)).1

theorem foldl_add_eq_sum (ws : List Num) : ws.foldl (· + ·) 0 = ws.sum := by
  rw [List.sum_eq_foldl]

theorem sum_map_div (ws : List Num) (a : Num) :
    (ws.map fun w => w / a).sum = ws.sum / a := by
  induction ws with
  | nil => simp
  | cons w ws ih => simp [ih, add_div]

/-- C5 (amended): whenever the raw column widths have a non-zero total,
the converted table's column widths are the raw widths divided by that
total and sum to exactly 1; in particular raw widths `[1, 3]` normalize
to `[1/4, 3/4]`. -/
theorem table_colwidths_sum_one (parseCellHtml : String → CellHtml)
    (nanoid : String) (r : Num) (p : RawProps)
    (h : p.colWidths.foldl (· + ·) 0 ≠ 0) :
    (convertTable parseCellHtml nanoid r p).colWidths =
      normalizeColWidths p.colWidths ∧
    (convertTable parseCellHtml nanoid r p).colWidths.sum = 1 ∧
    normalizeColWidths [1, 3] = [1 / 4, 3 / 4] := by
  rw [foldl_add_eq_sum] at h
  refine ⟨rfl, ?_, by norm_num [normalizeColWidths]⟩
  show (normalizeColWidths p.colWidths).sum = 1
  rw [normalizeColWidths, foldl_add_eq_sum, sum_map_div, div_self h]

/-- Raw table element whose column widths total zero. -/
def zeroWidthTableProps : RawProps :=
  { type := .table, colWidths := [0, 0], tableData := [[{}]], rowHeights := [1] }

/-- Counterexample to C5 as stated: with raw column widths `[0, 0]` the
total is zero and the normalized widths do not sum to 1 (they are `[0, 0]`
in this rational model; in JS the division by the zero total produces
`NaN`, which equally fails to sum to 1). -/
theorem table_colwidths_sum_one_cex :
    (convertTable plainCellHtml "id1" 1 zeroWidthTableProps).colWidths.sum ≠ 1 := by
  norm_num [convertTable, zeroWidthTableProps, normalizeColWidths]

/-- Witness for `table_colwidths_sum_one` at raw widths `[1, 3]`. -/
theorem table_colwidths_sum_one_witness :
    (([1, 3] : List Num).foldl (· + ·) 0 ≠ 0) ∧
    (convertTable plainCellHtml "id1" 1
      { type := .table, colWidths := [1, 3] }).colWidths.sum = 1 := by
  refine ⟨by norm_num, ?_⟩
  exact (table_colwidths_sum_one plainCellHtml "id1" 1
    { type := .table, colWidths := [1, 3] } (by norm_num)).2.1

/-- Raw shape element of the counterexample to C1: vendor shape type
matching no table entry, no raw path. -/
def unresolvedShapeProps : RawProps :=
  { type := .shape, shapType := "star5" }

/-- Counterexample to C1 as stated: a shape element whose vendor type
matches no entry of an (empty) shape table and that carries no raw path
is still pushed to the slide, with the built-in default rectangle path
and viewBox `[200, 200]` — it is not dropped. -/
theorem shape_drop_policy_cex :
    (parseElementsF sampleTheme [] noFormulas zeroPathRange idFontSize
        plainCellHtml idEmf constCos constSin "id1" 1 1
        [RawEl.mk unresolvedShapeProps []]).map
      (fun e => (e.type, e.path, e.viewBox)) =
      [(.shape, defaultShapePath, ((200 : Num), (200 : Num)))] := by
  norm_num +decide [parseElementsF, sortByOrder, List.insertionSort,
    unresolvedShapeProps, scaleEl, RawEl.props, convertShape,
    shapeResolutionOf, mkShapeElement, defaultShapePath]

/-- C1 (amended): a raw shape element is dropped only when its resolved
path is empty; when its vendor shape type matches no entry of the shape
table and it carries no raw path (and it is not the `custom` special
case), the element is pushed with the built-in default rectangle path and
viewBox `[200, 200]`, and conversion of the remaining elements
continues. -/
theorem shape_fallback_default_path (theme : Theme)
    (shapeList : List ShapePoolItem) (pathFormulas : String → PathFormulaEntry)
    (getSvgPathRange : String → Num × Num)
    (convertFontSizePtToPx : String → Num → String) (nanoid : String)
    (r origW origH : Num) (p : RawProps)
    (hfind : shapeList.find? (fun s => s.pptxShapeType = some p.shapType) = none)
    (hpath : p.path = none) (hcust : p.shapType ≠ "custom") :
    (convertShape theme shapeList pathFormulas getSvgPathRange
        convertFontSizePtToPx nanoid r origW origH p).map IntEl.path =
      some defaultShapePath ∧
    (convertShape theme shapeList pathFormulas getSvgPathRange
        convertFontSizePtToPx nanoid r origW origH p).map IntEl.viewBox =
      some (200, 200) ∧
    (convertShape theme shapeList pathFormulas getSvgPathRange
        convertFontSizePtToPx nanoid r origW origH p).map IntEl.type =
      some .shape := by
  simp [convertShape, shapeResolutionOf, mkShapeElement, hfind, hpath, hcust,
    defaultShapePath]

/-- Witness for `shape_fallback_default_path` at the concrete unresolved
shape element against an empty shape table. -/
theorem shape_fallback_default_path_witness :
    (([] : List ShapePoolItem).find?
       (fun s => s.pptxShapeType = some unresolvedShapeProps.shapType) = none) ∧
    unresolvedShapeProps.path = none ∧
    unresolvedShapeProps.shapType ≠ "custom" ∧
    (convertShape sampleTheme [] noFormulas zeroPathRange idFontSize "id1"
        1 1 1 unresolvedShapeProps).map IntEl.path = some defaultShapePath := by
  refine ⟨rfl, rfl, by decide, ?_⟩
  exact (shape_fallback_default_path sampleTheme [] noFormulas zeroPathRange
    idFontSize "id1" 1 1 1 unresolvedShapeProps rfl rfl (by decide)).1

/-- Raw text element of the end-to-end scaling scenario C4. -/
def c4TextProps : RawProps :=
  { type := .text, left := 10, top := 20, width := 100, height := 50 }

/-- Counterexample to C4 as stated: at ratio 1.333 the scenario text
element's converted left position is `13.33` (= 10 × 1.333), not the
claimed `13.3`. -/
theorem element_scaling_cex :
    (parseElementsF sampleTheme [] noFormulas zeroPathRange idFontSize
        plainCellHtml idEmf constCos constSin "id1" 1 (1333 / 1000)
        [RawEl.mk c4TextProps []]).map (fun t => t.left) = [1333 / 100] ∧
    (1333 / 100 : Num) ≠ 133 / 10 := by
  constructor
  · norm_num [parseElementsF, sortByOrder, List.insertionSort, c4TextProps,
      scaleEl, RawEl.props, convertText]
  · norm_num

theorem shapeResolutionOf_width (shapeList : List ShapePoolItem)
    (pathFormulas : String → PathFormulaEntry)
    (getSvgPathRange : String → Num × Num) (origW origH : Num) (p : RawProps) :
    (shapeResolutionOf shapeList pathFormulas getSvgPathRange origW origH
        p).width =
      if p.shapType = "custom" ∧ containsSubstr (strOrEmpty p.path) "NaN" = true ∧
          p.width = 0
      then 0.1 else p.width := by
  simp only [shapeResolutionOf]
  rcases hfind : List.find? (fun s => s.pptxShapeType = some p.shapType) shapeList
    with _ | shape
  · simp only [hfind]
    rcases hp : p.path with _ | rp <;> simp only [hp]
    · by_cases hc : p.shapType = "custom" <;>
        simp +decide [hc, hp, strOrEmpty]
    · by_cases hc : p.shapType = "custom"
      · by_cases hn : containsSubstr rp "NaN" = true
        · by_cases hw : p.width = 0 <;> simp [hc, hp, hn, hw, strOrEmpty]
        · simp [hc, hp, hn, strOrEmpty]
      · by_cases hn : containsSubstr rp "NaN" = true <;>
          simp [hc, hp, hn, strOrEmpty]
  · simp only [hfind]
    have hres0w : ∀ s' : Option String,
        (match s' with
          | some pf =>
            if (pathFormulas pf).editable = true then
              ({ path := (pathFormulas pf).formulaWithValues p.width p.height
                   (pathFormulas pf).defaultValue
                 viewBox := (p.width, p.height), pathFormula := some pf
                 keypoints := some (pathFormulas pf).defaultValue
                 width := p.width, height := p.height } : ShapeResolution)
            else
              { path := (pathFormulas pf).formula p.width p.height
                viewBox := (p.width, p.height), pathFormula := some pf
                width := p.width, height := p.height }
          | none =>
            { path := shape.path, viewBox := shape.viewBox
              width := p.width, height := p.height }).width = p.width := by
      intro s'
      rcases s' with _ | pf
      · rfl
      · by_cases he : (pathFormulas pf).editable = true <;> simp [he]
    by_cases hc : p.shapType = "custom"
    · by_cases hn : containsSubstr (strOrEmpty p.path) "NaN" = true
      · by_cases hw : p.width = 0 <;> simp [hc, hn, hw, hres0w]
      · simp [hc, hn, hres0w]
    · simp [hc, hres0w]

theorem shapeResolutionOf_height (shapeList : List ShapePoolItem)
    (pathFormulas : String → PathFormulaEntry)
    (getSvgPathRange : String → Num × Num) (origW origH : Num) (p : RawProps) :
    (shapeResolutionOf shapeList pathFormulas getSvgPathRange origW origH
        p).height =
      if p.shapType = "custom" ∧ containsSubstr (strOrEmpty p.path) "NaN" = true ∧
          p.height = 0
      then 0.1 else p.height := by
  simp only [shapeResolutionOf]
  rcases hfind : List.find? (fun s => s.pptxShapeType = some p.shapType) shapeList
    with _ | shape
  · simp only [hfind]
    rcases hp : p.path with _ | rp <;> simp only [hp]
    · by_cases hc : p.shapType = "custom" <;>
        simp +decide [hc, hp, strOrEmpty]
    · by_cases hc : p.shapType = "custom"
      · by_cases hn : containsSubstr rp "NaN" = true
        · by_cases hw : p.height = 0 <;> simp [hc, hp, hn, hw, strOrEmpty]
        · simp [hc, hp, hn, strOrEmpty]
      · by_cases hn : containsSubstr rp "NaN" = true <;>
          simp [hc, hp, hn, strOrEmpty]
  · simp only [hfind]
    have hres0h : ∀ s' : Option String,
        (match s' with
          | some pf =>
            if (pathFormulas pf).editable = true then
              ({ path := (pathFormulas pf).formulaWithValues p.width p.height
                   (pathFormulas pf).defaultValue
                 viewBox := (p.width, p.height), pathFormula := some pf
                 keypoints := some (pathFormulas pf).defaultValue
                 width := p.width, height := p.height } : ShapeResolution)
            else
              { path := (pathFormulas pf).formula p.width p.height
                viewBox := (p.width, p.height), pathFormula := some pf
                width := p.width, height := p.height }
          | none =>
            { path := shape.path, viewBox := shape.viewBox
              width := p.width, height := p.height }).height = p.height := by
      intro s'
      rcases s' with _ | pf
      · rfl
      · by_cases he : (pathFormulas pf).editable = true <;> simp [he]
    by_cases hc : p.shapType = "custom"
    · by_cases hn : containsSubstr (strOrEmpty p.path) "NaN" = true
      · by_cases hw : p.height = 0 <;> simp [hc, hn, hw, hres0h]
      · simp [hc, hn, hres0h]
    · simp [hc, hres0h]

/-- Conversion of a single top-level raw element through the element walk
(`fuel` 1 suffices for leaf kinds, 2 for one container level). -/
def convertTop (theme : Theme) (shapeList : List ShapePoolItem)
    (pathFormulas : String → PathFormulaEntry)
    (getSvgPathRange : String → Num × Num)
    (convertFontSizePtToPx : String → Num → String)
    (parseCellHtml : String → CellHtml) (emfToPng : String → String)
    (cosD sinD : Num → Num) (nanoid : String)
    (fuel : Nat) (r : Num) (p : RawProps) (ch : List RawEl) : List IntEl :=
  parseElementsF theme shapeList pathFormulas getSvgPathRange
    convertFontSizePtToPx parseCellHtml emfToPng cosD sinD nanoid fuel r
    [RawEl.mk p ch]

/-- C4 (amended): for every ratio `r > 0`, each linear field of a
converted top-level element (left, top, width, height, border width,
shadow offsets) equals the corresponding raw field multiplied by `r`
(border widths rounded to two decimals), for every element kind, with
these exceptions: a group/diagram child's position is first translated by
the parent's raw origin before scaling (shown here for a representative
unrotated, unflipped group); a rotated line is additionally shifted by
the rotation renormalization offset (the line case below is at zero
rotation); and a `custom` shape with an invalid (`NaN`) raw path has a
zero scaled dimension floored to `0.1`.  The end-to-end scenario at
ratio 1.333 yields `{left: 13.33, top: 26.66, width: 133.3,
height: 66.65}`. -/
theorem element_scaling (theme : Theme) (shapeList : List ShapePoolItem)
    (pathFormulas : String → PathFormulaEntry)
    (getSvgPathRange : String → Num × Num)
    (convertFontSizePtToPx : String → Num → String)
    (parseCellHtml : String → CellHtml) (emfToPng : String → String)
    (cosD sinD : Num → Num) (nanoid : String) (r : Num) (p : RawProps)
    (ch : List RawEl) (hr : 0 < r) :
    (p.type = .text → ∃ t, convertTop theme shapeList pathFormulas
        getSvgPathRange convertFontSizePtToPx parseCellHtml emfToPng cosD sinD
        nanoid 1 r p ch = [t] ∧
      t.left = p.left * r ∧ t.top = p.top * r ∧
      t.width = p.width * r ∧ t.height = p.height * r ∧
      t.outline = some { color := p.borderColor
                         width := toFixed2 (p.borderWidth * r)
                         style := p.borderType } ∧
      t.shadow = p.shadow.map (fun s =>
        { h := s.h * r, v := s.v * r, blur := s.blur * r, color := s.color })) ∧
    (p.type = .image → ∃ t, convertTop theme shapeList pathFormulas
        getSvgPathRange convertFontSizePtToPx parseCellHtml emfToPng cosD sinD
        nanoid 1 r p ch = [t] ∧
      t.left = p.left * r ∧ t.top = p.top * r ∧
      t.width = p.width * r ∧ t.height = p.height * r ∧
      t.outline = (if p.borderWidth ≠ 0 then
          some { color := p.borderColor
                 width := toFixed2 (p.borderWidth * r)
                 style := p.borderType }
        else none)) ∧
    (p.type = .math → ∃ t, convertTop theme shapeList pathFormulas
        getSvgPathRange convertFontSizePtToPx parseCellHtml emfToPng cosD sinD
        nanoid 1 r p ch = [t] ∧
      t.left = p.left * r ∧ t.top = p.top * r ∧
      t.width = p.width * r ∧ t.height = p.height * r) ∧
    (p.type = .audio → ∃ t, convertTop theme shapeList pathFormulas
        getSvgPathRange convertFontSizePtToPx parseCellHtml emfToPng cosD sinD
        nanoid 1 r p ch = [t] ∧
      t.left = p.left * r ∧ t.top = p.top * r ∧
      t.width = p.width * r ∧ t.height = p.height * r) ∧
    (p.type = .video → ∃ t, convertTop theme shapeList pathFormulas
        getSvgPathRange convertFontSizePtToPx parseCellHtml emfToPng cosD sinD
        nanoid 1 r p ch = [t] ∧
      t.left = p.left * r ∧ t.top = p.top * r ∧
      t.width = p.width * r ∧ t.height = p.height * r) ∧
    (p.type = .table → ∃ t, convertTop theme shapeList pathFormulas
        getSvgPathRange convertFontSizePtToPx parseCellHtml emfToPng cosD sinD
        nanoid 1 r p ch = [t] ∧
      t.left = p.left * r ∧ t.top = p.top * r ∧
      t.width = p.width * r ∧ t.height = p.height * r) ∧
    (p.type = .chart → ∃ t, convertTop theme shapeList pathFormulas
        getSvgPathRange convertFontSizePtToPx parseCellHtml emfToPng cosD sinD
        nanoid 1 r p ch = [t] ∧
      t.left = p.left * r ∧ t.top = p.top * r ∧
      t.width = p.width * r ∧ t.height = p.height * r) ∧
    (p.type = .shape →
      (p.shapType = "line" ∨ containsSubstr p.shapType "Connector" = true) →
      p.rotate = 0 → ∃ t, convertTop theme shapeList pathFormulas
        getSvgPathRange convertFontSizePtToPx parseCellHtml emfToPng cosD sinD
        nanoid 1 r p ch = [t] ∧
      t.left = p.left * r ∧ t.top = p.top * r ∧
      t.width = toFixed2 ((if p.borderWidth = 0 then 1 else p.borderWidth) * r)) ∧
    (p.type = .shape →
      ¬(p.shapType = "line" ∨ containsSubstr p.shapType "Connector" = true) →
      ∀ t ∈ convertTop theme shapeList pathFormulas getSvgPathRange
        convertFontSizePtToPx parseCellHtml emfToPng cosD sinD nanoid 1 r p ch,
      t.left = p.left * r ∧ t.top = p.top * r ∧
      t.outline = some { color := p.borderColor
                         width := toFixed2 (p.borderWidth * r)
                         style := p.borderType } ∧
      t.shadow = p.shadow.map (fun s =>
        { h := s.h * r, v := s.v * r, blur := s.blur * r, color := s.color }) ∧
      t.width = (if p.shapType = "custom" ∧
          containsSubstr (strOrEmpty p.path) "NaN" = true ∧ p.width * r = 0
        then 0.1 else p.width * r) ∧
      t.height = (if p.shapType = "custom" ∧
          containsSubstr (strOrEmpty p.path) "NaN" = true ∧ p.height * r = 0
        then 0.1 else p.height * r)) ∧
    (p.type = .group → p.rotate = 0 → p.isFlipH = false → p.isFlipV = false →
      ∀ c : RawProps, ch = [RawEl.mk c []] → c.type = .text →
      ∃ t, convertTop theme shapeList pathFormulas getSvgPathRange
        convertFontSizePtToPx parseCellHtml emfToPng cosD sinD nanoid 2 r
        p ch = [t] ∧
      t.left = (c.left + p.left) * r ∧ t.top = (c.top + p.top) * r) ∧
    (parseElementsF sampleTheme [] noFormulas zeroPathRange idFontSize
        plainCellHtml idEmf constCos constSin "id1" 1 (1333 / 1000)
        [RawEl.mk c4TextProps []]).map
      (fun t => (t.left, t.top, t.width, t.height)) =
      [(1333 / 100, 1333 / 50, 1333 / 10, 1333 / 20)] := by
  refine ⟨fun hty => ?_, fun hty => ?_, fun hty => ?_, fun hty => ?_,
    fun hty => ?_, fun hty => ?_, fun hty => ?_, fun hty hline hrot => ?_,
    fun hty hline => ?_, fun hty hrot hfh hfv c hch hct => ?_, ?_⟩
  · refine ⟨convertText theme convertFontSizePtToPx nanoid r (scaleEl r p),
      ?_, ?_, ?_, ?_, ?_, ?_, ?_⟩ <;>
      simp [convertTop, parseElementsF, sortByOrder, List.insertionSort,
        RawEl.props, hty, convertText, scaleEl]
  · refine ⟨convertImage emfToPng nanoid r (scaleEl r p), ?_, ?_, ?_, ?_, ?_, ?_⟩ <;>
      simp [convertTop, parseElementsF, sortByOrder, List.insertionSort,
        RawEl.props, hty, convertImage, scaleEl]
  · refine ⟨convertMath nanoid (scaleEl r p), ?_, ?_, ?_, ?_, ?_⟩ <;>
      simp [convertTop, parseElementsF, sortByOrder, List.insertionSort,
        RawEl.props, hty, convertMath, scaleEl]
  · refine ⟨convertAudio theme nanoid (scaleEl r p), ?_, ?_, ?_, ?_, ?_⟩ <;>
      simp [convertTop, parseElementsF, sortByOrder, List.insertionSort,
        RawEl.props, hty, convertAudio, scaleEl]
  · refine ⟨convertVideo nanoid (scaleEl r p), ?_, ?_, ?_, ?_, ?_⟩ <;>
      simp [convertTop, parseElementsF, sortByOrder, List.insertionSort,
        RawEl.props, hty, convertVideo, scaleEl]
  · refine ⟨convertTable parseCellHtml nanoid r (scaleEl r p), ?_, ?_, ?_, ?_, ?_⟩ <;>
      simp [convertTop, parseElementsF, sortByOrder, List.insertionSort,
        RawEl.props, hty, convertTable, scaleEl]
  · refine ⟨convertChart theme nanoid (scaleEl r p), ?_, ?_, ?_, ?_, ?_⟩ <;>
      simp [convertTop, parseElementsF, sortByOrder, List.insertionSort,
        RawEl.props, hty, convertChart, scaleEl]
  · refine ⟨parseLineElement cosD sinD nanoid (scaleEl r p) r, ?_, ?_, ?_, ?_⟩ <;>
      simp [convertTop, parseElementsF, sortByOrder, List.insertionSort,
        RawEl.props, hty, hline, hrot, parseLineElement, scaleEl,
        apply_ite IntEl.left, apply_ite IntEl.top, apply_ite IntEl.width]
  · intro t ht
    simp only [convertTop, parseElementsF, sortByOrder, List.insertionSort,
      List.orderedInsert, List.flatMap_cons, List.flatMap_nil,
      List.append_nil, RawEl.props, hty] at ht
    rw [show (scaleEl r p).shapType = p.shapType from rfl] at ht
    simp only [hline, if_false, ite_false] at ht
    rcases hcs : convertShape theme shapeList pathFormulas getSvgPathRange
        convertFontSizePtToPx nanoid r (if p.width = 0 then 1 else p.width)
        (if p.height = 0 then 1 else p.height) (scaleEl r p) with _ | e
    · rw [hcs] at ht
      simp at ht
    · rw [hcs] at ht
      simp only [List.mem_singleton] at ht
      subst ht
      simp only [convertShape] at hcs
      by_cases hpath : (shapeResolutionOf shapeList pathFormulas getSvgPathRange
          (if p.width = 0 then 1 else p.width)
          (if p.height = 0 then 1 else p.height) (scaleEl r p)).path = ""
      · simp [hpath] at hcs
      · simp only [ne_eq, hpath, not_false_eq_true, if_true,
          Option.some.injEq] at hcs
        rw [← hcs]
        refine ⟨rfl, rfl, rfl, rfl, ?_, ?_⟩
        · rw [show (mkShapeElement theme convertFontSizePtToPx nanoid r
              (scaleEl r p) (shapeResolutionOf shapeList pathFormulas
                getSvgPathRange (if p.width = 0 then 1 else p.width)
                (if p.height = 0 then 1 else p.height) (scaleEl r p))).width =
              (shapeResolutionOf shapeList pathFormulas getSvgPathRange
                (if p.width = 0 then 1 else p.width)
                (if p.height = 0 then 1 else p.height) (scaleEl r p)).width
            from rfl]
          rw [shapeResolutionOf_width]
          rfl
        · rw [show (mkShapeElement theme convertFontSizePtToPx nanoid r
              (scaleEl r p) (shapeResolutionOf shapeList pathFormulas
                getSvgPathRange (if p.width = 0 then 1 else p.width)
                (if p.height = 0 then 1 else p.height) (scaleEl r p))).height =
              (shapeResolutionOf shapeList pathFormulas getSvgPathRange
                (if p.width = 0 then 1 else p.width)
                (if p.height = 0 then 1 else p.height) (scaleEl r p)).height
            from rfl]
          rw [shapeResolutionOf_height]
          rfl
  · subst hch
    refine ⟨convertText theme convertFontSizePtToPx nanoid r
      (scaleEl r { c with left := c.left + p.left, top := c.top + p.top }),
      ?_, ?_, ?_⟩ <;>
      simp [convertTop, parseElementsF, sortByOrder, List.insertionSort,
        RawEl.props, RawEl.children, hty, hrot, hfh, hfv, hct, groupChildren,
        flipGroupElements, convertText, scaleEl, add_mul]
  · norm_num [parseElementsF, sortByOrder, List.insertionSort, c4TextProps,
      scaleEl, RawEl.props, convertText]

/-- Witness for `element_scaling` at a concrete text element and ratio 2. -/
theorem element_scaling_witness :
    (0 : Num) < 2 ∧ ({ type := .text, left := 3 : RawProps }).type = .text ∧
    ∃ t, convertTop sampleTheme [] noFormulas zeroPathRange idFontSize
        plainCellHtml idEmf constCos constSin "id1" 1 2
        { type := .text, left := 3 } [] = [t] ∧ t.left = 3 * 2 := by
  refine ⟨by norm_num, rfl, ?_⟩
  obtain ⟨t, h1, h2, -⟩ := ((element_scaling sampleTheme [] noFormulas
    zeroPathRange idFontSize plainCellHtml idEmf constCos constSin "id1" 2
    { type := .text, left := 3 } [] (by norm_num)).1) rfl
  exact ⟨t, h1, by rw [h2]⟩

theorem min_sub_left (a b c : Num) : min (a - b) (a - c) = a - max b c := by
  rcases le_total b c with h | h
  · rw [max_eq_right h, min_eq_right (by linarith)]
  · rw [max_eq_left h, min_eq_left (by linarith)]

theorem max_sub_left (a b c : Num) : max (a - b) (a - c) = a - min b c := by
  rcases le_total b c with h | h
  · rw [min_eq_left h, max_eq_left (by linarith)]
  · rw [min_eq_right h, max_eq_right (by linarith)]

theorem foldl_min_sub (a : Num) :
    ∀ (xs : List Num) (x : Num),
      (xs.map fun t => a - t).foldl min (a - x) = a - xs.foldl max x := by
  intro xs
  induction xs with
  | nil => intro x; rfl
  | cons y ys ih =>
    intro x
    simp only [List.map_cons, List.foldl_cons]
    rw [min_sub_left, ih]

theorem foldl_max_sub (a : Num) :
    ∀ (xs : List Num) (x : Num),
      (xs.map fun t => a - t).foldl max (a - x) = a - xs.foldl min x := by
  intro xs
  induction xs with
  | nil => intro x; rfl
  | cons y ys ih =>
    intro x
    simp only [List.map_cons, List.foldl_cons]
    rw [max_sub_left, ih]

theorem jsMin_map_sub (a : Num) (l : List Num) (h : l ≠ []) :
    jsMin (l.map fun t => a - t) = a - jsMax l := by
  cases l with
  | nil => exact absurd rfl h
  | cons x xs =>
    simp only [List.map_cons, jsMin, jsMax]
    exact foldl_min_sub a xs x

theorem jsMax_map_sub (a : Num) (l : List Num) (h : l ≠ []) :
    jsMax (l.map fun t => a - t) = a - jsMin l := by
  cases l with
  | nil => exact absurd rfl h
  | cons x xs =>
    simp only [List.map_cons, jsMin, jsMax]
    exact foldl_max_sub a xs x

theorem flipOne_y_props (cX cY : Num) (e : RawEl) :
    (flipOne cX cY .y e).props =
      { e.props with left := 2 * cX - e.props.left - e.props.width } := by
  cases e with
  | mk p ch => rfl

theorem flipOne_x_props (cX cY : Num) (e : RawEl) :
    (flipOne cX cY .x e).props =
      { e.props with top := 2 * cY - e.props.top - e.props.height } := by
  cases e with
  | mk p ch => rfl

theorem sibMinX_flip_y (els : List RawEl) (h : els ≠ []) :
    sibMinX (flipGroupElements els .y) = 2 * sibCenterX els - sibMaxX els := by
  rw [flipGroupElements, sibMinX, List.map_map]
  have hcomp : ((fun e => e.props.left) ∘
        flipOne (sibCenterX els) (sibCenterY els) .y) =
      (fun t => 2 * sibCenterX els - t) ∘
        (fun e => e.props.left + e.props.width) := by
    funext e
    simp only [Function.comp_apply, flipOne_y_props]
    ring
  rw [hcomp, ← List.map_map, jsMin_map_sub _ _ (by simpa using h)]
  rfl

theorem sibMaxX_flip_y (els : List RawEl) (h : els ≠ []) :
    sibMaxX (flipGroupElements els .y) = 2 * sibCenterX els - sibMinX els := by
  rw [flipGroupElements, sibMaxX, List.map_map]
  have hcomp : ((fun e => e.props.left + e.props.width) ∘
        flipOne (sibCenterX els) (sibCenterY els) .y) =
      (fun t => 2 * sibCenterX els - t) ∘ (fun e => e.props.left) := by
    funext e
    simp only [Function.comp_apply, flipOne_y_props]
    ring
  rw [hcomp, ← List.map_map, jsMax_map_sub _ _ (by simpa using h)]
  rfl

theorem sibCenterX_flip_y (els : List RawEl) (h : els ≠ []) :
    sibCenterX (flipGroupElements els .y) = sibCenterX els := by
  rw [show sibCenterX (flipGroupElements els .y) =
      (sibMinX (flipGroupElements els .y) + sibMaxX (flipGroupElements els .y)) / 2
    from rfl]
  rw [sibMinX_flip_y els h, sibMaxX_flip_y els h, sibCenterX]
  ring

theorem sibMinY_flip_x (els : List RawEl) (h : els ≠ []) :
    sibMinY (flipGroupElements els .x) = 2 * sibCenterY els - sibMaxY els := by
  rw [flipGroupElements, sibMinY, List.map_map]
  have hcomp : ((fun e => e.props.top) ∘
        flipOne (sibCenterX els) (sibCenterY els) .x) =
      (fun t => 2 * sibCenterY els - t) ∘
        (fun e => e.props.top + e.props.height) := by
    funext e
    simp only [Function.comp_apply, flipOne_x_props]
    ring
  rw [hcomp, ← List.map_map, jsMin_map_sub _ _ (by simpa using h)]
  rfl

theorem sibMaxY_flip_x (els : List RawEl) (h : els ≠ []) :
    sibMaxY (flipGroupElements els .x) = 2 * sibCenterY els - sibMinY els := by
  rw [flipGroupElements, sibMaxY, List.map_map]
  have hcomp : ((fun e => e.props.top + e.props.height) ∘
        flipOne (sibCenterX els) (sibCenterY els) .x) =
      (fun t => 2 * sibCenterY els - t) ∘ (fun e => e.props.top) := by
    funext e
    simp only [Function.comp_apply, flipOne_x_props]
    ring
  rw [hcomp, ← List.map_map, jsMax_map_sub _ _ (by simpa using h)]
  rfl

theorem sibCenterY_flip_x (els : List RawEl) (h : els ≠ []) :
    sibCenterY (flipGroupElements els .x) = sibCenterY els := by
  rw [show sibCenterY (flipGroupElements els .x) =
      (sibMinY (flipGroupElements els .x) + sibMaxY (flipGroupElements els .x)) / 2
    from rfl]
  rw [sibMinY_flip_x els h, sibMaxY_flip_x els h, sibCenterY]
  ring

theorem flipOne_y_invol (cX cY cY2 : Num) (e : RawEl) :
    flipOne cX cY2 .y (flipOne cX cY .y e) = e := by
  cases e with
  | mk p ch =>
    have harith : 2 * cX - (2 * cX - p.left - p.width) - p.width = p.left := by
      ring
    calc flipOne cX cY2 .y (flipOne cX cY .y (.mk p ch))
        = .mk { p with left := 2 * cX - (2 * cX - p.left - p.width) - p.width }
            ch := rfl
      _ = .mk { p with left := p.left } ch := by rw [harith]
      _ = .mk p ch := rfl

theorem flipOne_x_invol (cX cX2 cY : Num) (e : RawEl) :
    flipOne cX2 cY .x (flipOne cX cY .x e) = e := by
  cases e with
  | mk p ch =>
    have harith : 2 * cY - (2 * cY - p.top - p.height) - p.height = p.top := by
      ring
    calc flipOne cX2 cY .x (flipOne cX cY .x (.mk p ch))
        = .mk { p with top := 2 * cY - (2 * cY - p.top - p.height) - p.height }
            ch := rfl
      _ = .mk { p with top := p.top } ch := by rw [harith]
      _ = .mk p ch := rfl

/-- C7: the sibling flip is an involution — applying the same-axis flip
twice returns every element unchanged, for every non-empty sibling list
and either axis.  In this pure embedding the operation tautologically
leaves its input list untouched and builds new records. -/
theorem flip_siblings_involution (els : List RawEl) (axis : Axis)
    (h : els ≠ []) :
    flipGroupElements (flipGroupElements els axis) axis = els := by
  cases axis with
  | y =>
    conv_lhs => rw [flipGroupElements]
    rw [sibCenterX_flip_y els h]
    generalize sibCenterY (flipGroupElements els .y) = cY2
    rw [flipGroupElements, List.map_map]
    have hpt : ∀ e ∈ els,
        (flipOne (sibCenterX els) cY2 .y ∘
          flipOne (sibCenterX els) (sibCenterY els) .y) e = id e :=
      fun e _ => flipOne_y_invol (sibCenterX els) (sibCenterY els) cY2 e
    rw [List.map_congr_left hpt, List.map_id]
  | x =>
    conv_lhs => rw [flipGroupElements]
    rw [sibCenterY_flip_x els h]
    generalize sibCenterX (flipGroupElements els .x) = cX2
    rw [flipGroupElements, List.map_map]
    have hpt : ∀ e ∈ els,
        (flipOne cX2 (sibCenterY els) .x ∘
          flipOne (sibCenterX els) (sibCenterY els) .x) e = id e :=
      fun e _ => flipOne_x_invol (sibCenterX els) cX2 (sibCenterY els) e
    rw [List.map_congr_left hpt, List.map_id]

/-- Two concrete sibling elements used as the involution witness. -/
def sibA : RawEl := .mk { left := 0, top := 0, width := 10, height := 5 } []

/-- Second concrete sibling element of the involution witness. -/
def sibB : RawEl := .mk { left := 30, top := 8, width := 10, height := 4 } []

/-- Witness for `flip_siblings_involution` on a concrete two-element
sibling list. -/
theorem flip_siblings_involution_witness :
    ([sibA, sibB] : List RawEl) ≠ [] ∧
    flipGroupElements (flipGroupElements [sibA, sibB] .y) .y = [sibA, sibB] :=
  ⟨by simp, flip_siblings_involution [sibA, sibB] .y (by simp)⟩

section FlattenTheorems

variable (theme : Theme)
variable (shapeList : List ShapePoolItem)
variable (pathFormulas : String → PathFormulaEntry)
variable (getSvgPathRange : String → Num × Num)
variable (convertFontSizePtToPx : String → Num → String)
variable (parseCellHtml : String → CellHtml)
variable (emfToPng : String → String)
variable (cosD sinD : Num → Num)
variable (nanoid : String)

theorem parseLineElement_type (p : RawProps) (r : Num) :
    (parseLineElement cosD sinD nanoid p r).type = .line := by
  simp [parseLineElement, apply_ite IntEl.type]

theorem convertShape_type (r origW origH : Num) (p : RawProps) (e : IntEl)
    (h : convertShape theme shapeList pathFormulas getSvgPathRange
      convertFontSizePtToPx nanoid r origW origH p = some e) :
    e.type = .shape := by
  simp only [convertShape] at h
  by_cases hc : (shapeResolutionOf shapeList pathFormulas getSvgPathRange
      origW origH p).path = ""
  · simp [hc] at h
  · simp only [ne_eq, hc, not_false_eq_true, if_true, Option.some.injEq] at h
    rw [← h]
    rfl

theorem parseElementsF_no_containers :
    ∀ (n : Nat) (r : Num) (els : List RawEl) (e : IntEl),
      e ∈ parseElementsF theme shapeList pathFormulas getSvgPathRange
        convertFontSizePtToPx parseCellHtml emfToPng cosD sinD nanoid n r els →
      e.type ≠ .group ∧ e.type ≠ .diagram := by
  intro n
  induction n with
  | zero =>
    intro r els e he
    simp [parseElementsF] at he
  | succ n ih =>
    intro r els e he
    simp only [parseElementsF] at he
    rw [List.mem_flatMap] at he
    obtain ⟨el, -, hbody⟩ := he
    revert hbody
    cases htype : el.props.type <;>
      intro hbody <;> simp only [htype] at hbody
    case text =>
      rw [List.mem_singleton] at hbody
      subst hbody
      exact ⟨by simp [convertText], by simp [convertText]⟩
    case image =>
      rw [List.mem_singleton] at hbody
      subst hbody
      exact ⟨by simp [convertImage], by simp [convertImage]⟩
    case math =>
      rw [List.mem_singleton] at hbody
      subst hbody
      exact ⟨by simp [convertMath], by simp [convertMath]⟩
    case audio =>
      rw [List.mem_singleton] at hbody
      subst hbody
      exact ⟨by simp [convertAudio], by simp [convertAudio]⟩
    case video =>
      rw [List.mem_singleton] at hbody
      subst hbody
      exact ⟨by simp [convertVideo], by simp [convertVideo]⟩
    case shape =>
      split at hbody
      · rw [List.mem_singleton] at hbody
        subst hbody
        rw [parseLineElement_type]
        exact ⟨by simp, by simp⟩
      · revert hbody
        cases hcs : convertShape theme shapeList pathFormulas getSvgPathRange
            convertFontSizePtToPx nanoid r
            (if el.props.width = 0 then 1 else el.props.width)
            (if el.props.height = 0 then 1 else el.props.height)
            (scaleEl r el.props) <;> intro hbody
        · simp at hbody
        · rw [List.mem_singleton] at hbody
          subst hbody
          rw [convertShape_type theme shapeList pathFormulas getSvgPathRange
            convertFontSizePtToPx nanoid _ _ _ _ _ hcs]
          exact ⟨by simp, by simp⟩
    case table =>
      rw [List.mem_singleton] at hbody
      subst hbody
      exact ⟨by simp [convertTable], by simp [convertTable]⟩
    case chart =>
      rw [List.mem_singleton] at hbody
      subst hbody
      exact ⟨by simp [convertChart], by simp [convertChart]⟩
    case group => exact ih r (groupChildren cosD sinD el) e hbody
    case diagram => exact ih r (diagramChildren el) e hbody
    case line => simp at hbody

theorem parseElementsF_group_unfold (n : Nat) (r : Num) (g : RawEl)
    (hg : g.props.type = .group) :
    parseElementsF theme shapeList pathFormulas getSvgPathRange
        convertFontSizePtToPx parseCellHtml emfToPng cosD sinD nanoid
        (n + 1) r [g] =
      parseElementsF theme shapeList pathFormulas getSvgPathRange
        convertFontSizePtToPx parseCellHtml emfToPng cosD sinD nanoid
        n r (groupChildren cosD sinD g) := by
  simp [parseElementsF, sortByOrder, List.insertionSort, List.orderedInsert, hg]

theorem parseElementsF_diagram_unfold (n : Nat) (r : Num) (d : RawEl)
    (hd : d.props.type = .diagram) :
    parseElementsF theme shapeList pathFormulas getSvgPathRange
        convertFontSizePtToPx parseCellHtml emfToPng cosD sinD nanoid
        (n + 1) r [d] =
      parseElementsF theme shapeList pathFormulas getSvgPathRange
        convertFontSizePtToPx parseCellHtml emfToPng cosD sinD nanoid
        n r (diagramChildren d) := by
  simp [parseElementsF, sortByOrder, List.insertionSort, List.orderedInsert, hd]

/-- C9 (amended): no converted element is of kind group or diagram; a raw
group element contributes exactly the recursive conversion of its
translated children (rotation-aware when rotated, flip-propagated and
reflected about the joint bounding box when flipped), while a raw diagram
element contributes exactly the recursive conversion of its plainly
translated children (no rotation or flip handling). -/
theorem flatten_drops_containers (n : Nat) (r : Num) (els : List RawEl)
    (g d : RawEl) (hg : g.props.type = .group) (hd : d.props.type = .diagram) :
    (∀ e ∈ parseElementsF theme shapeList pathFormulas getSvgPathRange
        convertFontSizePtToPx parseCellHtml emfToPng cosD sinD nanoid n r els,
      e.type ≠ .group ∧ e.type ≠ .diagram) ∧
    parseElementsF theme shapeList pathFormulas getSvgPathRange
        convertFontSizePtToPx parseCellHtml emfToPng cosD sinD nanoid
        (n + 1) r [g] =
      parseElementsF theme shapeList pathFormulas getSvgPathRange
        convertFontSizePtToPx parseCellHtml emfToPng cosD sinD nanoid
        n r (groupChildren cosD sinD g) ∧
    parseElementsF theme shapeList pathFormulas getSvgPathRange
        convertFontSizePtToPx parseCellHtml emfToPng cosD sinD nanoid
        (n + 1) r [d] =
      parseElementsF theme shapeList pathFormulas getSvgPathRange
        convertFontSizePtToPx parseCellHtml emfToPng cosD sinD nanoid
        n r (diagramChildren d) :=
  ⟨fun e he => parseElementsF_no_containers theme shapeList pathFormulas
      getSvgPathRange convertFontSizePtToPx parseCellHtml emfToPng cosD sinD
      nanoid n r els e he,
   parseElementsF_group_unfold theme shapeList pathFormulas getSvgPathRange
     convertFontSizePtToPx parseCellHtml emfToPng cosD sinD nanoid n r g hg,
   parseElementsF_diagram_unfold theme shapeList pathFormulas getSvgPathRange
     convertFontSizePtToPx parseCellHtml emfToPng cosD sinD nanoid n r d hd⟩

end FlattenTheorems

/-- First child of the flipped-diagram counterexample. -/
def diagChildA : RawEl :=
  .mk { type := .text, left := 0, top := 0, width := 10, height := 5 } []

/-- Second child of the flipped-diagram counterexample. -/
def diagChildB : RawEl :=
  .mk { type := .text, left := 30, top := 0, width := 10, height := 5,
        order := 1 } []

/-- Raw diagram container with its flip flag set. -/
def flippedDiagram : RawEl :=
  .mk { type := .diagram, left := 0, top := 0, width := 40, height := 10,
        isFlipH := true } [diagChildA, diagChildB]

/-- Counterexample to C9 as stated: converting a flipped diagram container
leaves its children's positions plainly translated (lefts `[0, 30]`); the
claimed flip about the joint bounding box would put them at `[30, 0]`.
The flip/rotation handling applies only to group containers. -/
theorem flatten_drops_containers_cex :
    (parseElementsF sampleTheme [] noFormulas zeroPathRange idFontSize
        plainCellHtml idEmf constCos constSin "id1" 2 1
        [flippedDiagram]).map (fun e => e.left) = [0, 30] ∧
    (flipGroupElements (diagramChildren flippedDiagram) .y).map
      (fun e => e.props.left) = [30, 0] ∧
    ([0, 30] : List Num) ≠ [30, 0] := by
  refine ⟨?_, ?_, by norm_num⟩
  · norm_num +decide [parseElementsF, sortByOrder, List.insertionSort,
      List.orderedInsert, flippedDiagram, diagChildA, diagChildB,
      diagramChildren, RawEl.props, RawEl.children, scaleEl, convertText]
  · norm_num +decide [flipGroupElements, flipOne, sibCenterX, sibCenterY,
      sibMinX, sibMaxX, sibMinY, sibMaxY, jsMin, jsMax, diagramChildren,
      flippedDiagram, diagChildA, diagChildB, RawEl.props, RawEl.children,
      min_def, max_def]

/-- Witness for `flatten_drops_containers` at a concrete group and
diagram element. -/
theorem flatten_drops_containers_witness :
    (RawEl.mk { type := .group } []).props.type = .group ∧
    (RawEl.mk { type := .diagram } []).props.type = .diagram ∧
    parseElementsF sampleTheme [] noFormulas zeroPathRange idFontSize
        plainCellHtml idEmf constCos constSin "id1" 1 1
        [RawEl.mk { type := .group } []] =
      parseElementsF sampleTheme [] noFormulas zeroPathRange idFontSize
        plainCellHtml idEmf constCos constSin "id1" 0 1
        (groupChildren constCos constSin (RawEl.mk { type := .group } [])) := by
  refine ⟨rfl, rfl, ?_⟩
  exact (flatten_drops_containers sampleTheme [] noFormulas zeroPathRange
    idFontSize plainCellHtml idEmf constCos constSin "id1" 0 1 []
    (RawEl.mk { type := .group } []) (RawEl.mk { type := .diagram } [])
    rfl rfl).2.1

end PPTist
